import Mathlib

/-!
Shallow embedding of the reportinator_server moderation pipeline
(planetary-social/reportinator_server) in Lean 4, together with theorems
settling the specification claims about it.

Modelling conventions:
* 32-byte public keys are modelled as wrapped naturals; a `Keys` pair keeps
  its secret scalar and its derived public key as plain fields (the
  secp256k1 derivation itself is outside the repository).
* Cryptographic signature verification (`Event::verify` of the nostr SDK)
  is abstracted by a boolean field `sigOk` on events: an event whose
  signature was altered is one with `sigOk = false`.
* Rust `String` values that the code may re-parse into domain objects are
  modelled symbolically by `RStr`: a serialized event, a hex public key,
  or an ordinary literal.  Serialization is the injective constructor and
  parsing its partial inverse, mirroring `Event::from_json` /
  `PublicKey::from_hex`.
* JSON documents are modelled by the inductive `JVal`; a JSON object is an
  association list of fields in serialization order, as produced and
  consumed by serde.
-/

/-- A 32-byte x-only public key, abstracted. -/
structure PublicKey where
  val : Nat
deriving DecidableEq, Repr

/-- A nostr keypair: secret scalar plus its derived public key
(`Keys::public_key()` in nostr_sdk). -/
structure Keys where
  secret : Nat
  publicKey : PublicKey
deriving DecidableEq, Repr

/-- The NIP-56 report type enumeration (`nostr_sdk::Report`). -/
inductive Report where
  | Nudity
  | Malware
  | Profanity
  | Illegal
  | Spam
  | Impersonation
  | Other
deriving DecidableEq, Repr

/-- The string form of a NIP-56 report type, used as the third element of
report tags (`Report::as_str` in the nostr SDK). -/
def Report.as_str : Report → String
  | .Nudity => "nudity"
  | .Malware => "malware"
  | .Profanity => "profanity"
  | .Illegal => "illegal"
  | .Spam => "spam"
  | .Impersonation => "impersonation"
  | .Other => "other"

/-- A network event (`nostr_sdk::Event`) as far as the pipeline inspects
it: id, author pubkey, creation time, kind, content text, and the
abstracted outcome of Schnorr signature verification (`sigOk`). -/
structure NEvent where
  id : Nat
  pubkey : PublicKey
  created_at : Nat
  kind : Nat
  content : String
  sigOk : Bool
deriving DecidableEq, Repr

/-- Symbolic model of a Rust `String` that domain code may parse:
either an ordinary literal, the JSON serialization of an event, or the
hex rendering of a public key. -/
inductive RStr where
  | lit (s : String)
  | eventJson (e : NEvent)
  | pubkeyHex (pk : PublicKey)
deriving DecidableEq, Repr

/-- Model of `nostr_sdk::Event::from_json` on a symbolic string. -/
def RStr.event_from_json : RStr → Option NEvent
  | .eventJson e => some e
  | _ => none

/-- Model of `nostr_sdk::PublicKey::from_hex` on a symbolic string. -/
def RStr.public_key_from_hex : RStr → Option PublicKey
  | .pubkeyHex pk => some pk
  | _ => none

/-- `ReportTarget` from src/domain_objects/report_request.rs: the subject
of a report, either a full event or a bare public key. -/
inductive ReportTarget where
  | event (e : NEvent)
  | pubkey (pk : PublicKey)
deriving DecidableEq, Repr

/-- `ReportTarget::pubkey()`: the public key a target points at (the
event author, or the key itself). -/
def ReportTarget.target_pubkey : ReportTarget → PublicKey
  | .event e => e.pubkey
  | .pubkey pk => pk

/-- `ReportRequest` from src/domain_objects/report_request.rs. -/
structure ReportRequest where
  target : ReportTarget
  reporter_pubkey : PublicKey
  reporter_text : Option RStr
deriving DecidableEq, Repr

/-- `ReportRequest::valid`: an event target must carry a verifying
signature; a pubkey target needs no check. -/
def ReportRequest.valid (self : ReportRequest) : Bool :=
  match self.target with
  | .event e => e.sigOk
  | .pubkey _ => true

/-- One element of a nostr tag: tags are vectors of strings on the wire;
public keys, event ids and report types occurring in them are kept
symbolic. -/
inductive TagField where
  | str (s : String)
  | pk (p : PublicKey)
  | eventId (n : Nat)
  | report (r : Report)
deriving DecidableEq, Repr

/-- `Tag::public_key_report(pk, report)` of the nostr SDK: the tag
`["p", <pubkey hex>, <report type>]`. -/
def Tag.public_key_report (p : PublicKey) (category : Report) : List TagField :=
  [.str "p", .pk p, .report category]

/-- `Tag::event_report(id, report)` of the nostr SDK: the tag
`["e", <event id hex>, <report type>]`. -/
def Tag.event_report (id : Nat) (category : Report) : List TagField :=
  [.str "e", .eventId id, .report category]

/-- The moderation category taxonomy from
src/domain_objects/moderation_category.rs. -/
inductive ModerationCategory where
  | Hate
  | HateThreatening
  | Harassment
  | HarassmentThreatening
  | SelfHarm
  | SelfHarmIntent
  | SelfHarmInstructions
  | Sexual
  | SexualMinors
  | Violence
  | ViolenceGraphic
deriving DecidableEq, Repr

/-- `ModerationCategory::description` (verbatim strings from the source). -/
def ModerationCategory.description : ModerationCategory → String
  | .Hate => "Content that expresses, incites, or promotes hate based on race, gender, ethnicity, religion, nationality, sexual orientation, disability status, or caste. Hateful content aimed at non-protected groups (e.g., chess players) is harassment."
  | .HateThreatening => "Hateful content that also includes violence or serious harm towards the targeted group based on race, gender, ethnicity, religion, nationality, sexual orientation, disability status, or caste."
  | .Harassment => "Content that expresses, incites, or promotes harassing language towards any target."
  | .HarassmentThreatening => "Harassment content that also includes violence or serious harm towards any target."
  | .SelfHarm => "Content that promotes, encourages, or depicts acts of self-harm, such as suicide, cutting, and eating disorders."
  | .SelfHarmIntent => "Content where the speaker expresses that they are engaging or intend to engage in acts of self-harm, such as suicide, cutting, and eating disorders."
  | .SelfHarmInstructions => "Content that encourages performing acts of self-harm, such as suicide, cutting, and eating disorders, or that gives instructions or advice on how to commit such acts."
  | .Sexual => "Content meant to arouse sexual excitement, such as the description of sexual activity, or that promotes sexual services (excluding sex education and wellness)."
  | .SexualMinors => "Sexual content that includes an individual who is under 18 years old."
  | .Violence => "Content that depicts death, violence, or physical injury."
  | .ViolenceGraphic => "Content that depicts death, violence, or physical injury in graphic detail."

/-- `ModerationCategory::nip56_report_type`. -/
def ModerationCategory.nip56_report_type : ModerationCategory → Report
  | .Sexual => .Nudity
  | .SexualMinors => .Illegal
  | _ => .Other

/-- `ModerationCategory::nip69`. -/
def ModerationCategory.nip69 : ModerationCategory → String
  | .Hate => "IH"
  | .HateThreatening => "HC-bhd"
  | .Harassment => "IL-har"
  | .HarassmentThreatening => "HC-bhd"
  | .SelfHarm => "HC-bhd"
  | .SelfHarmIntent => "HC-bhd"
  | .SelfHarmInstructions => "HC-bhd"
  | .Sexual => "NS"
  | .SexualMinors => "IL-csa"
  | .Violence => "VI"
  | .ViolenceGraphic => "VI"

/-- The canonical string name of each category, exactly the string
`from_str` maps back to it. -/
def ModerationCategory.name : ModerationCategory → String
  | .Hate => "hate"
  | .HateThreatening => "hate/threatening"
  | .Harassment => "harassment"
  | .HarassmentThreatening => "harassment/threatening"
  | .SelfHarm => "self-harm"
  | .SelfHarmIntent => "self-harm/intent"
  | .SelfHarmInstructions => "self-harm/instructions"
  | .Sexual => "sexual"
  | .SexualMinors => "sexual/minors"
  | .Violence => "violence"
  | .ViolenceGraphic => "violence/graphic"

/-- `ModerationCategory::from_str` (the `FromStr` impl); the `Err` case is
modelled as `none`. -/
def ModerationCategory.from_str (input : String) : Option ModerationCategory :=
  if input = "hate" then some .Hate
  else if input = "hate/threatening" then some .HateThreatening
  else if input = "harassment" then some .Harassment
  else if input = "harassment/threatening" then some .HarassmentThreatening
  else if input = "self-harm" then some .SelfHarm
  else if input = "self-harm/intent" then some .SelfHarmIntent
  else if input = "self-harm/instructions" then some .SelfHarmInstructions
  else if input = "sexual" then some .Sexual
  else if input = "sexual/minors" then some .SexualMinors
  else if input = "violence" then some .Violence
  else if input = "violence/graphic" then some .ViolenceGraphic
  else none

/-- An outgoing signed event as produced by
`EventBuilder::new(kind, content, tags).to_event(keys)`: authored by the
signing keys' public key.  Signing itself always succeeds in the model. -/
structure OutgoingEvent where
  pubkey : PublicKey
  kind : Nat
  content : String
  tags : List (List TagField)
deriving DecidableEq, Repr

/-- `report_description` from src/domain_objects/moderated_report.rs:
the fixed content string attached per NIP-56 report type. -/
def report_description : Report → String
  | .Nudity => "Depictions of nudity, porn, or sexually explicit content."
  | .Malware => "Virus, trojan horse, worm, robot, spyware, adware, back door, ransomware, rootkit, kidnapper, etc."
  | .Profanity => "Profanity, hateful speech, or other offensive content."
  | .Illegal => "Content that may be illegal in some jurisdictions."
  | .Spam => "Spam."
  | .Impersonation => "Someone pretending to be someone else."
  | .Other => "For reports that don't fit in the above categories."

/-- `ModeratedReport` from src/domain_objects/moderated_report.rs. -/
structure ModeratedReport where
  event : OutgoingEvent
deriving DecidableEq, Repr

/-- `ModeratedReport::set_tags`: a `p` tag for the reported pubkey, plus an
`e` tag when a reported event id is present.  No other tags are built. -/
def ModeratedReport.set_tags (reported_pubkey : PublicKey)
    (reported_event_id : Option Nat) (category : Report) :
    List (List TagField) :=
  let pubkey_tag := Tag.public_key_report reported_pubkey category
  match reported_event_id with
  | some id => [pubkey_tag, Tag.event_report id category]
  | none => [pubkey_tag]

/-- `ModeratedReport::create`.  The global `config::reportinator::config().keys`
is passed explicitly as `reportinator_keys`; `to_event` signing is modelled
as total. -/
def ModeratedReport.create (reportinator_keys : Keys)
    (reported_request : ReportRequest) (category : Report) : ModeratedReport :=
  let reported : PublicKey × Option Nat :=
    match reported_request.target with
    | .event e => (e.pubkey, some e.id)
    | .pubkey pk => (pk, none)
  let tags := ModeratedReport.set_tags reported.1 reported.2 category
  { event :=
      { pubkey := reportinator_keys.publicKey
        kind := 1984
        content := report_description category
        tags := tags } }

/-- `ReportRequest::report`: no category selected means no report event. -/
def ReportRequest.report (reportinator_keys : Keys) (self : ReportRequest)
    (maybe_moderation_category : Option Report) : Option ModeratedReport :=
  match maybe_moderation_category with
  | none => none
  | some moderation_category =>
      some (ModeratedReport.create reportinator_keys self moderation_category)

/-- A JSON value as the pipeline manipulates it: objects are association
lists in serialization order; embedded domain atoms stay symbolic. -/
inductive JVal where
  | null
  | str (s : RStr)
  | ev (e : NEvent)
  | obj (fields : List (String × JVal))


/-- serde deserialization of an `Event` from a JSON value. -/
def JVal.as_event : JVal → Option NEvent
  | .ev e => some e
  | _ => none

/-- serde deserialization of a `PublicKey` from a JSON value: it must be a
string holding a hex public key. -/
def JVal.as_public_key : JVal → Option PublicKey
  | .str (.pubkeyHex pk) => some pk
  | _ => none

/-- `ReportRequestRumorContent` from src/domain_objects/report_request.rs:
the deserialized rumor payload, a flattened `ReportTarget` plus an optional
reporter text. -/
structure ReportRequestRumorContent where
  target : ReportTarget
  reporter_text : Option RStr
deriving DecidableEq, Repr

/-- The serde `flatten` scan for the externally tagged `ReportTarget`
variant key: the first field named `reportedEvent` or `reportedPubkey`
selects the variant; other fields are skipped. -/
def findVariantField : List (String × JVal) → Option (String × JVal)
  | [] => none
  | (k, v) :: rest =>
      if k = "reportedEvent" ∨ k = "reportedPubkey" then some (k, v)
      else findVariantField rest

/-- Deserializing the flattened `ReportTarget` from the fields of a JSON
object, per serde: the selected variant key's value must deserialize. -/
def parseTarget (fields : List (String × JVal)) : Option ReportTarget :=
  match findVariantField fields with
  | some ("reportedEvent", v) => (v.as_event).map ReportTarget.event
  | some ("reportedPubkey", v) => (v.as_public_key).map ReportTarget.pubkey
  | _ => none

/-- serde's scan for a named field in a JSON object (first occurrence). -/
def lookupField (key : String) : List (String × JVal) → Option JVal
  | [] => none
  | (k, v) :: rest => if k = key then some v else lookupField key rest

/-- Deserializing the optional `reporterText` field, per serde: a missing
field or `null` is `none`; a present field must be a string. -/
def parseReporterText (fields : List (String × JVal)) : Option (Option RStr) :=
  match lookupField "reporterText" fields with
  | none => some none
  | some .null => some none
  | some (.str s) => some (some s)
  | some _ => none

/-- `ReportRequestRumorContent::parse` (serde_json::from_str on the rumor
content).  Unknown fields — in particular a `reporterPubkey` field — are
ignored, as serde does without `deny_unknown_fields`. -/
def ReportRequestRumorContent.parse (rumor_content : JVal) :
    Option ReportRequestRumorContent :=
  match rumor_content with
  | .obj fields =>
      match parseTarget fields, parseReporterText fields with
      | some target, some text => some { target := target, reporter_text := text }
      | _, _ => none
  | _ => none

/-- `ReportRequestRumorContent::into_report_request`: the reporter pubkey
is the one passed in (the rumor's author), never read from the body. -/
def ReportRequestRumorContent.into_report_request
    (self : ReportRequestRumorContent) (pubkey : PublicKey) : ReportRequest :=
  { target := self.target, reporter_pubkey := pubkey, reporter_text := self.reporter_text }

/-- serde serialization of the flattened `ReportTarget` field. -/
def ReportTarget.serializeField : ReportTarget → String × JVal
  | .event e => ("reportedEvent", .ev e)
  | .pubkey pk => ("reportedPubkey", .str (.pubkeyHex pk))

/-- `serde_json::to_string` on a `ReportRequest`: flattened target first,
then `reporterPubkey`, then `reporterText` (serialized as null when
absent). -/
def ReportRequest.serialize (self : ReportRequest) : JVal :=
  .obj [self.target.serializeField,
        ("reporterPubkey", .str (.pubkeyHex self.reporter_pubkey)),
        ("reporterText", match self.reporter_text with
          | some t => .str t
          | none => .null)]

/-- A `kind 14` rumor: an unsigned event whose content carries the
serialized report request. -/
structure Rumor where
  pubkey : PublicKey
  created_at : Nat
  kind : Nat
  content : JVal


/-- NIP-44 ciphertext of a rumor, as carried in a seal's content: the
conversation is identified by the sender and receiver public keys, and
decryption succeeds exactly for the matching keys. -/
structure SealCipher where
  sender : PublicKey
  receiver : PublicKey
  rumor : Rumor


/-- A `kind 13` seal event. -/
structure SealEvent where
  pubkey : PublicKey
  created_at : Nat
  kind : Nat
  content : SealCipher


/-- NIP-44 ciphertext of a seal, as carried in a gift wrap's content. -/
structure WrapCipher where
  sender : PublicKey
  receiver : PublicKey
  seal_ev : SealEvent


/-- A `kind 1059` gift-wrap event (outer onion layer), signed by an
ephemeral key. -/
structure GiftWrapEvent where
  pubkey : PublicKey
  created_at : Nat
  kind : Nat
  content : WrapCipher


/-- `NostrSigner::nip44_encrypt` by the reporter keys towards the receiver,
applied to a rumor JSON. -/
def nip44_encrypt_rumor (sender_keys : Keys) (receiver : PublicKey)
    (rumor : Rumor) : SealCipher :=
  { sender := sender_keys.publicKey, receiver := receiver, rumor := rumor }

/-- NIP-44 decryption of a seal's content with the receiver's keys and the
counterparty public key: succeeds exactly when the conversation keys
match. -/
def nip44_decrypt_rumor (keys : Keys) (sender : PublicKey)
    (c : SealCipher) : Option Rumor :=
  if c.receiver = keys.publicKey ∧ c.sender = sender then some c.rumor else none

/-- NIP-44 decryption of a gift wrap's content. -/
def nip44_decrypt_seal (keys : Keys) (sender : PublicKey)
    (c : WrapCipher) : Option SealEvent :=
  if c.receiver = keys.publicKey ∧ c.sender = sender then some c.seal_ev else none

/-- `EventBuilder::gift_wrap_from_seal(receiver, seal, expiration)` of the
nostr SDK: encrypt the seal to the receiver under a fresh ephemeral key and
sign the `kind 1059` wrap with it.  The ephemeral key and wrap timestamp
are explicit parameters standing for the SDK's randomness. -/
def gift_wrap_from_seal (ephemeral : Keys) (receiver : PublicKey)
    (s13 : SealEvent) (wrap_created_at : Nat) : GiftWrapEvent :=
  { pubkey := ephemeral.publicKey
    created_at := wrap_created_at
    kind := 1059
    content := { sender := ephemeral.publicKey, receiver := receiver, seal_ev := s13 } }

/-- `UnwrappedGift` of the nostr SDK: the seal's author (sender) and the
decrypted rumor. -/
structure UnwrappedGift where
  sender : PublicKey
  rumor : Rumor


/-- `nostr_sdk::extract_rumor(keys, gift_wrap)`: reject non-1059 kinds,
decrypt the wrap with the receiver keys and the wrap author, then decrypt
the seal with the receiver keys and the seal author. -/
def extract_rumor (keys : Keys) (gift_wrap : GiftWrapEvent) :
    Option UnwrappedGift :=
  if gift_wrap.kind = 1059 then
    match nip44_decrypt_seal keys gift_wrap.pubkey gift_wrap.content with
    | none => none
    | some sealed =>
        match nip44_decrypt_rumor keys sealed.pubkey sealed.content with
        | none => none
        | some rumor => some { sender := sealed.pubkey, rumor := rumor }
  else none

/-- `GiftWrappedReportRequest` newtype from src/domain_objects/gift_wrap.rs. -/
structure GiftWrappedReportRequest where
  inner : GiftWrapEvent


/-- The `TryFrom<Event>` impl: only `kind 1059` events wrap report
requests. -/
def GiftWrappedReportRequest.try_from (event : GiftWrapEvent) :
    Except String GiftWrappedReportRequest :=
  if event.kind = 1059 then .ok { inner := event }
  else .error "Event kind is not 1059"

/-- `GiftWrappedReportRequest::extract_report_request`: unwrap the onion,
parse the rumor content, attribute the request to the rumor's author, and
reject requests whose target event does not verify. -/
def GiftWrappedReportRequest.extract_report_request
    (self : GiftWrappedReportRequest) (keys : Keys) :
    Except String ReportRequest :=
  match extract_rumor keys self.inner with
  | none => .error "Couldn't extract rumor"
  | some unwrapped_gift =>
      match ReportRequestRumorContent.parse unwrapped_gift.rumor.content with
      | none => .error "Failed to parse report request rumor content"
      | some report_request_rumor_content =>
          let report_request :=
            report_request_rumor_content.into_report_request
              unwrapped_gift.rumor.pubkey
          if report_request.valid then .ok report_request
          else .error "not a valid gift wrapped report request"

/-- `AsGiftWrap::random_time_in_last_two_days`:
`Timestamp::now() - rand::random::<u64>() % (2 * 24 * 60 * 60)`, with the
current time and the random draw as explicit parameters. -/
def random_time_in_last_two_days (now rand : Nat) : Nat :=
  now - rand % (2 * 24 * 60 * 60)

/-- `AsGiftWrap::as_gift_wrap` for `ReportRequest`
(src/domain_objects/as_gift_wrap.rs): refuse a reporter-key mismatch,
serialize the request into a `kind 14` rumor authored by the reporter,
seal it (`kind 13`, randomized `created_at`), and gift-wrap the seal under
an ephemeral key.  `now`, `rand`, `rumor_created_at`, `wrap_created_at`
and `ephemeral` make the ambient time and randomness explicit. -/
def ReportRequest.as_gift_wrap (self : ReportRequest) (reporter_keys : Keys)
    (receiver_pubkey : PublicKey) (now rand rumor_created_at wrap_created_at : Nat)
    (ephemeral : Keys) : Except String GiftWrappedReportRequest :=
  if self.reporter_pubkey ≠ reporter_keys.publicKey then
    .error "Reporter public key does not match the provided keys"
  else
    let report_request_json := self.serialize
    let kind_14_rumor : Rumor :=
      { pubkey := reporter_keys.publicKey
        created_at := rumor_created_at
        kind := 14
        content := report_request_json }
    let content := nip44_encrypt_rumor reporter_keys receiver_pubkey kind_14_rumor
    let kind_13_seal : SealEvent :=
      { pubkey := reporter_keys.publicKey
        created_at := random_time_in_last_two_days now rand
        kind := 13
        content := content }
    let kind_1059_gift_wrap :=
      gift_wrap_from_seal ephemeral receiver_pubkey kind_13_seal wrap_created_at
    GiftWrappedReportRequest.try_from kind_1059_gift_wrap

/-- One entry of `message.blocks` in the Slack interaction payload, as far
as `find_block_id` navigates it: its `block_id` and the text at
`elements[0].elements[0].text` (`none` when that path is absent, in which
case `find_map` skips the block). -/
structure SlackBlock where
  block_id : String
  text : Option RStr
deriving DecidableEq, Repr

/-- The fields of the Slack block-actions payload that
`parse_slack_action` reads (each `none` models a missing or non-string
JSON field). -/
structure SlackActionsEvent where
  response_url : Option RStr
  username : Option String
  action_value : Option RStr
  action_id : Option String
  blocks : List SlackBlock
deriving DecidableEq, Repr

/-- `find_block_id` from src/adapters/http_server/slack_interactions_route.rs:
the text of the first block whose `block_id` matches and whose nested text
is present. -/
def find_block_id (ev : SlackActionsEvent) (block_id_text : String) : Option RStr :=
  ev.blocks.findSome? fun block =>
    if block.block_id = block_id_text then block.text else none

/-- `parse_slack_action` from
src/adapters/http_server/slack_interactions_route.rs.  Url parsing of the
`response_url` string is modelled as always succeeding; `AppError` values
are collapsed to their message strings. -/
def parse_slack_action (ev : SlackActionsEvent) :
    Except String (RStr × String × ReportRequest × Option ModerationCategory) :=
  match ev.response_url with
  | none => .error "Missing response_url"
  | some response_url =>
    match ev.username with
    | none => .error "Missing username"
    | some slack_username =>
      let action_value := ev.action_value.getD (.lit "")
      match ev.action_id with
      | none => .error "Missing action_id"
      | some action_id =>
        let reported_event_value := find_block_id ev "reportedEvent"
        let reported_pubkey := find_block_id ev "reportedPubkey"
        let reporter_text := find_block_id ev "reporterText"
        let target : Except String ReportTarget :=
          match reported_event_value with
          | none =>
            match reported_pubkey with
            | none => .error "neither reportedEvent nor reportedPubkey present"
            | some reported_pubkey_value =>
              match reported_pubkey_value.public_key_from_hex with
              | none => .error "reported_pubkey"
              | some pk => .ok (.pubkey pk)
          | some reported_event_value =>
            match reported_event_value.event_from_json with
            | none => .error "reported_event"
            | some reported_event => .ok (.event reported_event)
        match target with
        | .error e => .error e
        | .ok target =>
          match action_value.public_key_from_hex with
          | none => .error "reporter_pubkey"
          | some reporter_pubkey =>
            .ok (response_url, slack_username,
                 { target := target
                   reporter_pubkey := reporter_pubkey
                   reporter_text := reporter_text },
                 ModerationCategory.from_str action_id)

/-- Outcome of a port call (`PubsubPort::publish_event` /
`SlackClientPort::write_message`). -/
inductive PortResult where
  | ok
  | err
deriving DecidableEq, Repr

/-- `EventEnqueuer::handle` on an `Enqueue` message
(src/actors/event_enqueuer.rs): pubkey targets are skipped; otherwise the
pubsub port is called once and a success or error counter bumped.  Returns
the list of `publish_event` calls made and the counter increments. -/
def EventEnqueuer.handle_enqueue (report_request : ReportRequest)
    (publish_result : PortResult) : List ReportRequest × List String :=
  match report_request.target with
  | .pubkey _ => ([], [])
  | .event _ =>
    match publish_result with
    | .err => ([report_request], ["events_enqueued_error"])
    | .ok => ([report_request], ["events_enqueued"])

/-- `SlackWriter::handle` on a `Write` message (src/actors/slack_writer.rs):
event targets are skipped; otherwise the chat port is called once and a
success or error counter bumped.  Returns the list of `write_message`
calls made and the counter increments. -/
def SlackWriter.handle_write (report_request : ReportRequest)
    (post_result : PortResult) : List ReportRequest × List String :=
  match report_request.target with
  | .event _ => ([], [])
  | .pubkey _ =>
    match post_result with
    | .err => ([report_request], ["slack_write_message_error"])
    | .ok => ([report_request], ["slack_write_message"])

/-- Concrete service keypair for instances (stands for the configured
reportinator keys). -/
def service_keys : Keys := ⟨10, ⟨11⟩⟩

/-- Concrete reporter keypair for instances. -/
def sender_keys : Keys := ⟨20, ⟨21⟩⟩

/-- Concrete ephemeral keypair for instances. -/
def eph_keys : Keys := ⟨40, ⟨41⟩⟩

/-- Concrete reported pubkey for instances. -/
def victim_pk : PublicKey := ⟨2⟩

/-- Concrete offending event with a verifying signature. -/
def sample_event : NEvent :=
  { id := 100, pubkey := victim_pk, created_at := 1700000000, kind := 1
    content := "I hate you!!", sigOk := true }

/-- The same offending event with its signature altered. -/
def tampered_event : NEvent := { sample_event with sigOk := false }

/-- Concrete report request targeting an event. -/
def sample_event_request : ReportRequest :=
  { target := .event sample_event, reporter_pubkey := sender_keys.publicKey
    reporter_text := none }

/-- Concrete report request targeting a pubkey. -/
def sample_pubkey_request : ReportRequest :=
  { target := .pubkey victim_pk, reporter_pubkey := sender_keys.publicKey
    reporter_text := none }

/-- C1 counterexample: at a concrete request and category (Hate), the
produced ModeratedReport event carries neither the label-namespace tag
`["L","MOD"]` nor the label tag `["l","MOD>"++nip69,"MOD"]` the claim
requires. -/
theorem claim_C1_counterexample :
    ¬ ([TagField.str "L", TagField.str "MOD"] ∈
        (ModeratedReport.create service_keys sample_pubkey_request
          ModerationCategory.Hate.nip56_report_type).event.tags) ∧
    ¬ ([TagField.str "l", TagField.str ("MOD>" ++ ModerationCategory.Hate.nip69),
        TagField.str "MOD"] ∈
        (ModeratedReport.create service_keys sample_pubkey_request
          ModerationCategory.Hate.nip56_report_type).event.tags) := by
  decide

/-- C1 (amended): for every service keypair, report request and NIP-56
report type, the ModeratedReport event's tags are exactly a `p` tag with
the reported pubkey and the report type as third field, plus an `e` tag
with the reported event id and the same third field exactly when the
target is an event; no label-namespace or label tag is produced (the
builder receives a NIP-56 report type, and no NIP-69 code appears). -/
theorem claim_C1 : ∀ (keys : Keys) (req : ReportRequest) (category : Report),
    (ModeratedReport.create keys req category).event.tags =
      match req.target with
      | .event e => [Tag.public_key_report e.pubkey category,
                     Tag.event_report e.id category]
      | .pubkey pk => [Tag.public_key_report pk category] := by
  intro keys req category
  rcases req with ⟨target, rp, rt⟩
  cases target <;> rfl

/-- C2 counterexample: at a concrete request and the Hate category, the
produced event's content is the NIP-56 report-type description, not the
ModerationCategory's human description. -/
theorem claim_C2_counterexample :
    (ModeratedReport.create service_keys sample_pubkey_request
        ModerationCategory.Hate.nip56_report_type).event.content ≠
      ModerationCategory.Hate.description := by
  decide

/-- C2 (amended): for every service keypair, report request and NIP-56
report type, the ModeratedReport event has kind 1984, is authored by the
service key, and its content equals the fixed `report_description` of the
NIP-56 report type handed to the builder (the builder takes a
`nostr_sdk::Report`, not a ModerationCategory). -/
theorem claim_C2 : ∀ (keys : Keys) (req : ReportRequest) (category : Report),
    (ModeratedReport.create keys req category).event.kind = 1984 ∧
    (ModeratedReport.create keys req category).event.pubkey = keys.publicKey ∧
    (ModeratedReport.create keys req category).event.content =
      report_description category := by
  intro keys req category
  exact ⟨rfl, rfl, rfl⟩

/-- C5 (confirmed): for every report request and any port outcome, the
classifier enqueuer calls its pubsub publish exactly once for event
targets and zero times for pubkey targets, and the chat writer calls its
chat post exactly once for pubkey targets and zero times for event
targets. -/
theorem claim_C5 : ∀ (r : ReportRequest) (res1 res2 : PortResult),
    (EventEnqueuer.handle_enqueue r res1).1.length =
      (match r.target with | .event _ => 1 | .pubkey _ => 0) ∧
    (SlackWriter.handle_write r res2).1.length =
      (match r.target with | .pubkey _ => 1 | .event _ => 0) := by
  intro r res1 res2
  rcases r with ⟨target, rp, rt⟩
  cases target <;> cases res1 <;> cases res2 <;> exact ⟨rfl, rfl⟩

set_option maxHeartbeats 1000000 in
/-- C8 (confirmed): `from_str` maps each category's canonical name back to
it, maps nothing outside the eleven names to a category (so the mapping is
an 11-way bijection), and maps the string "skip" to no category. -/
theorem claim_C8 :
    (∀ C : ModerationCategory, ModerationCategory.from_str C.name = some C) ∧
    (∀ (s : String) (C : ModerationCategory),
        ModerationCategory.from_str s = some C → s = C.name) ∧
    ModerationCategory.from_str "skip" = none := by
  refine ⟨?_, ?_, by rfl⟩
  · intro C; cases C <;> rfl
  · intro s C h
    unfold ModerationCategory.from_str at h
    repeat' split at h
    all_goals first
      | exact Option.noConfusion h
      | (injection h with h2; subst h2; assumption)

/-- C8 witness: the theorem applied at the concrete string "hate". -/
theorem claim_C8_witness : "hate" = ModerationCategory.Hate.name :=
  claim_C8.2.1 "hate" ModerationCategory.Hate (by rfl)

/-- Successful gift-wrap construction, spelled out: with matching
reporter keys, `as_gift_wrap` returns exactly the three-layer onion. -/
theorem as_gift_wrap_spec (R : ReportRequest) (K : Keys) (recv : PublicKey)
    (now rand rca wca : Nat) (eph : Keys)
    (hmatch : R.reporter_pubkey = K.publicKey) :
    R.as_gift_wrap K recv now rand rca wca eph = .ok
      ⟨{ pubkey := eph.publicKey
         created_at := wca
         kind := 1059
         content :=
           { sender := eph.publicKey
             receiver := recv
             seal_ev :=
               { pubkey := K.publicKey
                 created_at := random_time_in_last_two_days now rand
                 kind := 13
                 content :=
                   { sender := K.publicKey
                     receiver := recv
                     rumor :=
                       { pubkey := K.publicKey
                         created_at := rca
                         kind := 14
                         content := R.serialize } } } } }⟩ := by
  unfold ReportRequest.as_gift_wrap
  rw [if_neg (fun hn => hn hmatch)]
  rfl

/-- Failed gift-wrap construction: mismatched reporter keys give the
error. -/
theorem as_gift_wrap_mismatch (R : ReportRequest) (K : Keys)
    (recv : PublicKey) (now rand rca wca : Nat) (eph : Keys)
    (hne : R.reporter_pubkey ≠ K.publicKey) :
    R.as_gift_wrap K recv now rand rca wca eph =
      .error "Reporter public key does not match the provided keys" := by
  unfold ReportRequest.as_gift_wrap
  exact if_pos hne

/-- C9 (confirmed): for every gift-wrap construction (current time at
least 48 hours past the epoch), the seal event's created_at lies in the
half-open 48-hour window ending at the construction time:
now - 172800 < created_at ≤ now, for every random draw. -/
theorem claim_C9 : ∀ (now rand : Nat) (R : ReportRequest) (K : Keys)
    (recv : PublicKey) (rca wca : Nat) (eph : Keys)
    (gw : GiftWrappedReportRequest),
    172800 ≤ now →
    R.as_gift_wrap K recv now rand rca wca eph = .ok gw →
    now - 172800 < gw.inner.content.seal_ev.created_at ∧
      gw.inner.content.seal_ev.created_at ≤ now := by
  intro now rand R K recv rca wca eph gw hnow h
  by_cases hk : R.reporter_pubkey = K.publicKey
  · rw [as_gift_wrap_spec R K recv now rand rca wca eph hk] at h
    injection h with h2
    subst h2
    show now - 172800 < random_time_in_last_two_days now rand ∧
      random_time_in_last_two_days now rand ≤ now
    simp only [random_time_in_last_two_days]
    have hm : rand % (2 * 24 * 60 * 60) < 2 * 24 * 60 * 60 :=
      Nat.mod_lt _ (by norm_num)
    omega
  · rw [as_gift_wrap_mismatch R K recv now rand rca wca eph hk] at h
    exact Except.noConfusion h

/-- C9 witness: the theorem applied at a concrete time, random draw and
gift-wrap construction. -/
theorem claim_C9_witness :
    1700000000 - 172800 <
      ((sample_pubkey_request.as_gift_wrap sender_keys service_keys.publicKey
          1700000000 12345 1699999999 1700000001 eph_keys).toOption.get
        (by rfl)).inner.content.seal_ev.created_at := by
  refine (claim_C9 1700000000 12345 sample_pubkey_request sender_keys
    service_keys.publicKey 1699999999 1700000001 eph_keys _ (by norm_num) ?_).1
  rfl

/-- C10 (confirmed): `as_gift_wrap` rejects a report request whose
reporter pubkey differs from the supplied reporter keypair's public key,
and any successfully built wrap had matching keys. -/
theorem claim_C10 : ∀ (R : ReportRequest) (K : Keys) (recv : PublicKey)
    (now rand rca wca : Nat) (eph : Keys),
    (R.reporter_pubkey ≠ K.publicKey →
      R.as_gift_wrap K recv now rand rca wca eph =
        .error "Reporter public key does not match the provided keys") ∧
    (∀ gw, R.as_gift_wrap K recv now rand rca wca eph = .ok gw →
      R.reporter_pubkey = K.publicKey) := by
  intro R K recv now rand rca wca eph
  constructor
  · intro hne
    exact as_gift_wrap_mismatch R K recv now rand rca wca eph hne
  · intro gw h
    by_cases hk : R.reporter_pubkey = K.publicKey
    · exact hk
    · rw [as_gift_wrap_mismatch R K recv now rand rca wca eph hk] at h
      exact Except.noConfusion h

/-- C10 witness: the theorem applied at a concrete mismatched pair. -/
theorem claim_C10_witness :
    sample_pubkey_request.as_gift_wrap service_keys service_keys.publicKey
        1700000000 12345 1 2 eph_keys =
      .error "Reporter public key does not match the provided keys" :=
  (claim_C10 sample_pubkey_request service_keys service_keys.publicKey
    1700000000 12345 1 2 eph_keys).1 (by decide)

/-- Concrete Slack payload carrying both a reportedEvent and a
reportedPubkey block. -/
def slack_event_both : SlackActionsEvent :=
  { response_url := some (.lit "https://hooks.slack.com/foobar")
    username := some "daniel"
    action_value := some (.pubkeyHex sender_keys.publicKey)
    action_id := some "skip"
    blocks := [⟨"reportedEvent", some (.eventJson sample_event)⟩,
               ⟨"reportedPubkey", some (.pubkeyHex victim_pk)⟩] }

/-- C3 counterexample: on a payload carrying both blocks, the decoder
resolves the target to the reported event, not to
`Pubkey(parsed reportedPubkey text)` as the claim states. -/
theorem claim_C3_counterexample :
    parse_slack_action slack_event_both =
      .ok (RStr.lit "https://hooks.slack.com/foobar", "daniel",
        { target := .event sample_event
          reporter_pubkey := sender_keys.publicKey
          reporter_text := none }, none) ∧
    ReportTarget.event sample_event ≠ ReportTarget.pubkey victim_pk := by
  exact ⟨rfl, by decide⟩

/-- C3 (amended): the decoder requires at least one of the two subject
blocks — with neither present it returns a parse error — and when the
reportedEvent block is present (and parses), it wins: the resulting
target is that event, regardless of any reportedPubkey block. -/
theorem claim_C3 : ∀ ev : SlackActionsEvent,
    (find_block_id ev "reportedEvent" = none →
      find_block_id ev "reportedPubkey" = none →
      ∃ msg, parse_slack_action ev = .error msg) ∧
    (∀ s e url user rr cat,
      find_block_id ev "reportedEvent" = some s →
      RStr.event_from_json s = some e →
      parse_slack_action ev = .ok (url, user, rr, cat) →
      rr.target = .event e) := by
  intro ev
  rcases ev with ⟨oru, oun, oav, oai, blocks⟩
  constructor
  · intro h1 h2
    cases oru with
    | none => exact ⟨_, rfl⟩
    | some ru =>
      cases oun with
      | none => exact ⟨_, rfl⟩
      | some un =>
        cases oai with
        | none => exact ⟨_, rfl⟩
        | some ai =>
          refine ⟨"neither reportedEvent nor reportedPubkey present", ?_⟩
          simp only [parse_slack_action, h1, h2]
  · intro s e url user rr cat h1 h2 h3
    cases oru with
    | none => exact Except.noConfusion h3
    | some ru =>
      cases oun with
      | none => exact Except.noConfusion h3
      | some un =>
        cases oai with
        | none => exact Except.noConfusion h3
        | some ai =>
          simp only [parse_slack_action, h1, h2] at h3
          rcases hpk : (oav.getD (.lit "")).public_key_from_hex with _ | pk
          · simp only [hpk] at h3
            exact Except.noConfusion h3
          · simp only [hpk] at h3
            injection h3 with h4
            injection h4 with ha h4b
            injection h4b with hb h4c
            injection h4c with hc hd
            subst hc
            rfl

/-- C3 witness: the theorem applied at concrete payloads, one with
neither subject block and one whose reportedEvent block wins. -/
theorem claim_C3_witness :
    ∃ msg,
      parse_slack_action
        { response_url := some (.lit "u"), username := some "daniel"
          action_value := some (.pubkeyHex sender_keys.publicKey)
          action_id := some "skip", blocks := [] } = .error msg :=
  (claim_C3 _).1 rfl rfl

/-- Removing every `reporterPubkey` field from a JSON object's field
list; two rumor bodies "differ only in a reporterPubkey field" when this
normalization makes them equal. -/
def dropReporterPubkey : List (String × JVal) → List (String × JVal)
  | [] => []
  | (k, v) :: rest =>
      if k = "reporterPubkey" then dropReporterPubkey rest
      else (k, v) :: dropReporterPubkey rest

/-- Scanning for the flattened target's variant key is unaffected by
dropping `reporterPubkey` fields: that key is not a variant name. -/
theorem findVariantField_drop (fields : List (String × JVal)) :
    findVariantField (dropReporterPubkey fields) = findVariantField fields := by
  induction fields with
  | nil => rfl
  | cons kv rest ih =>
    rcases kv with ⟨k, v⟩
    by_cases hk : k = "reporterPubkey"
    · subst hk
      simp [dropReporterPubkey, findVariantField, ih]
    · by_cases hv : k = "reportedEvent" ∨ k = "reportedPubkey"
      · simp [dropReporterPubkey, findVariantField, hk, hv]
      · simp [dropReporterPubkey, findVariantField, hk, hv, ih]

/-- Looking up `reporterText` is likewise unaffected by dropping
`reporterPubkey` fields. -/
theorem lookupField_reporterText_drop (fields : List (String × JVal)) :
    lookupField "reporterText" (dropReporterPubkey fields) =
      lookupField "reporterText" fields := by
  induction fields with
  | nil => rfl
  | cons kv rest ih =>
    rcases kv with ⟨k, v⟩
    by_cases hk : k = "reporterPubkey"
    · subst hk
      simp [dropReporterPubkey, lookupField, ih]
    · by_cases ht : k = "reporterText"
      · simp [dropReporterPubkey, lookupField, hk, ht]
      · simp [dropReporterPubkey, lookupField, hk, ht, ih]

/-- C4 (confirmed): a successfully extracted report request is attributed
to the rumor's author, and the rumor-content parser is insensitive to any
`reporterPubkey` field embedded in the body JSON (two payloads equal after
dropping that field parse identically), so editing the body cannot change
the attributed reporter. -/
theorem claim_C4 :
    (∀ (keys : Keys) (g : GiftWrappedReportRequest) (ug : UnwrappedGift)
        (rr : ReportRequest),
      extract_rumor keys g.inner = some ug →
      g.extract_report_request keys = .ok rr →
      rr.reporter_pubkey = ug.rumor.pubkey) ∧
    (∀ f1 f2 : List (String × JVal),
      dropReporterPubkey f1 = dropReporterPubkey f2 →
      ReportRequestRumorContent.parse (.obj f1) =
        ReportRequestRumorContent.parse (.obj f2)) := by
  constructor
  · intro keys g ug rr h1 h2
    simp only [GiftWrappedReportRequest.extract_report_request, h1] at h2
    rcases hp : ReportRequestRumorContent.parse ug.rumor.content with _ | rc
    · simp only [hp] at h2
      exact Except.noConfusion h2
    · simp only [hp] at h2
      by_cases hv : (rc.into_report_request ug.rumor.pubkey).valid = true
      · rw [if_pos hv] at h2
        injection h2 with h3
        subst h3
        rfl
      · rw [if_neg hv] at h2
        exact Except.noConfusion h2
  · intro f1 f2 hf
    have ht : parseTarget f1 = parseTarget f2 := by
      unfold parseTarget
      rw [← findVariantField_drop f1, hf, findVariantField_drop f2]
    have hx : parseReporterText f1 = parseReporterText f2 := by
      unfold parseReporterText
      rw [← lookupField_reporterText_drop f1, hf, lookupField_reporterText_drop f2]
    simp only [ReportRequestRumorContent.parse]
    rw [ht, hx]

/-- Concrete rumor carrying the serialized sample pubkey request. -/
def sample_rumor : Rumor :=
  { pubkey := sender_keys.publicKey, created_at := 1699999999, kind := 14
    content := sample_pubkey_request.serialize }

/-- Concrete three-layer gift wrap around `sample_rumor`, encrypted to the
service keys. -/
def sample_wrap : GiftWrappedReportRequest :=
  ⟨{ pubkey := eph_keys.publicKey
     created_at := 1700000001
     kind := 1059
     content :=
       { sender := eph_keys.publicKey
         receiver := service_keys.publicKey
         seal_ev :=
           { pubkey := sender_keys.publicKey
             created_at := 1699999000
             kind := 13
             content :=
               { sender := sender_keys.publicKey
                 receiver := service_keys.publicKey
                 rumor := sample_rumor } } } }⟩

/-- C4 witness: the theorem applied at the concrete wrap. -/
theorem claim_C4_witness :
    sample_pubkey_request.reporter_pubkey = sample_rumor.pubkey :=
  claim_C4.1 service_keys sample_wrap
    ⟨sender_keys.publicKey, sample_rumor⟩ sample_pubkey_request rfl rfl

/-- Parsing the serde serialization of a report request recovers its
target and reporter text (the serialized `reporterPubkey` field is
ignored by the parser). -/
theorem parse_serialize (R : ReportRequest) :
    ReportRequestRumorContent.parse R.serialize =
      some ⟨R.target, R.reporter_text⟩ := by
  rcases R with ⟨t, rp, rt⟩
  cases t <;> cases rt <;> rfl

/-- C6 (confirmed): gift-wrapping a valid report request whose reporter
pubkey matches the reporter keypair, then extracting with the service
keys, yields the request back (the reporter pubkey being recovered from
the rumor author, which equals the reporter keypair's public key). -/
theorem claim_C6 : ∀ (R : ReportRequest) (K S : Keys)
    (now rand rca wca : Nat) (eph : Keys) (gw : GiftWrappedReportRequest),
    R.reporter_pubkey = K.publicKey →
    R.valid = true →
    R.as_gift_wrap K S.publicKey now rand rca wca eph = .ok gw →
    gw.extract_report_request S = .ok R := by
  intro R K S now rand rca wca eph gw hk hv h
  rw [as_gift_wrap_spec R K S.publicKey now rand rca wca eph hk] at h
  injection h with h2
  subst h2
  simp only [GiftWrappedReportRequest.extract_report_request, extract_rumor,
    nip44_decrypt_seal, nip44_decrypt_rumor, if_pos rfl, and_self, if_true,
    parse_serialize]
  have hv2 : (ReportRequestRumorContent.into_report_request
      ⟨R.target, R.reporter_text⟩ K.publicKey).valid = true := by
    rw [← hk]
    exact hv
  rw [if_pos hv2]
  rcases R with ⟨t, rp, rt⟩
  simp only [ReportRequestRumorContent.into_report_request] at hk ⊢
  rw [hk]

/-- Concrete successful gift wrap of the sample pubkey request, exactly
the value `as_gift_wrap` produces. -/
def sample_ok_wrap : GiftWrappedReportRequest :=
  ⟨{ pubkey := eph_keys.publicKey
     created_at := 1700000001
     kind := 1059
     content :=
       { sender := eph_keys.publicKey
         receiver := service_keys.publicKey
         seal_ev :=
           { pubkey := sender_keys.publicKey
             created_at := random_time_in_last_two_days 1700000000 12345
             kind := 13
             content :=
               { sender := sender_keys.publicKey
                 receiver := service_keys.publicKey
                 rumor :=
                   { pubkey := sender_keys.publicKey
                     created_at := 1699999999
                     kind := 14
                     content := sample_pubkey_request.serialize } } } } }⟩

/-- C6 witness: the round trip at concrete keys and request. -/
theorem claim_C6_witness :
    sample_ok_wrap.extract_report_request service_keys =
      .ok sample_pubkey_request :=
  claim_C6 sample_pubkey_request sender_keys service_keys
    1700000000 12345 1699999999 1700000001 eph_keys sample_ok_wrap
    rfl rfl rfl

/-- C7 (confirmed): when the decrypted rumor's report request targets an
event whose signature does not verify, validity checking is false and
extraction fails with an error, so the unwrapping path emits no
ReportRequest. -/
theorem claim_C7 : ∀ (keys : Keys) (g : GiftWrappedReportRequest)
    (ug : UnwrappedGift) (rc : ReportRequestRumorContent) (e : NEvent),
    extract_rumor keys g.inner = some ug →
    ReportRequestRumorContent.parse ug.rumor.content = some rc →
    rc.target = .event e →
    e.sigOk = false →
    (rc.into_report_request ug.rumor.pubkey).valid = false ∧
    g.extract_report_request keys =
      .error "not a valid gift wrapped report request" := by
  intro keys g ug rc e h1 h2 ht hs
  have hval : (rc.into_report_request ug.rumor.pubkey).valid = false := by
    simp only [ReportRequestRumorContent.into_report_request,
      ReportRequest.valid, ht]
    exact hs
  refine ⟨hval, ?_⟩
  simp only [GiftWrappedReportRequest.extract_report_request, h1, h2]
  rw [if_neg (by rw [hval]; exact Bool.false_ne_true)]

/-- Concrete report request targeting the tampered event. -/
def bad_request : ReportRequest :=
  { target := .event tampered_event
    reporter_pubkey := sender_keys.publicKey
    reporter_text := none }

/-- Concrete gift wrap whose rumor targets the tampered event. -/
def bad_wrap : GiftWrappedReportRequest :=
  ⟨{ pubkey := eph_keys.publicKey
     created_at := 1700000001
     kind := 1059
     content :=
       { sender := eph_keys.publicKey
         receiver := service_keys.publicKey
         seal_ev :=
           { pubkey := sender_keys.publicKey
             created_at := 1699999000
             kind := 13
             content :=
               { sender := sender_keys.publicKey
                 receiver := service_keys.publicKey
                 rumor :=
                   { pubkey := sender_keys.publicKey
                     created_at := 1699999999
                     kind := 14
                     content := bad_request.serialize } } } } }⟩

/-- C7 witness: the theorem applied at the concrete tampered wrap. -/
theorem claim_C7_witness :
    bad_wrap.extract_report_request service_keys =
      .error "not a valid gift wrapped report request" :=
  (claim_C7 service_keys bad_wrap
    ⟨sender_keys.publicKey,
      { pubkey := sender_keys.publicKey
        created_at := 1699999999
        kind := 14
        content := bad_request.serialize }⟩
    ⟨.event tampered_event, none⟩ tampered_event rfl (parse_serialize bad_request)
    rfl rfl).2
